import Mathlib

/-!
# TRACE front end: session and job-lifecycle view model

A shallow embedding of the React components under `frontend/src`
(`App.jsx`, `components/Login.jsx`, `components/FileUpload.jsx`,
`components/JobList.jsx`, `components/Header.jsx`) together with the properties
of the session, upload and roster behaviour that they satisfy.

Modelling conventions.

* JavaScript values are the values a JSON response body can hold, plus
  `undefined`. Numbers are integer valued (the components only ever observe
  whether a number is zero and how it prints).
* An event handler is run against the outcome of the one HTTP exchange it
  starts. What it does is recorded as a list of `Event`s in program order;
  the marker `Event.fetchSettled` separates what ran before the `await`
  from what ran after the promise settled.
* React state is a record; the state setters a handler calls are applied to
  it in order, after which `useEffect` runs when its dependency changed.
-/

namespace TRACE

/-! ## JavaScript values -/

mutual
/-- The JavaScript values that reach the components: `undefined` and every
value `JSON.parse` can produce. -/
inductive JSValue where
  | undefined
  | null
  | bool (b : Bool)
  | num (n : Int)
  | str (s : String)
  | arr (items : JSList)
  | obj (fields : JSFields)
  deriving DecidableEq
/-- The elements of an array, first to last. -/
inductive JSList where
  | nil
  | cons (head : JSValue) (tail : JSList)
  deriving DecidableEq
/-- The own properties of an object, in the order they were written. -/
inductive JSFields where
  | nil
  | cons (key : String) (value : JSValue) (rest : JSFields)
  deriving DecidableEq
end

/-- Truthiness (`ToBoolean`): what `if (v)`, `!v` and `!!v` test. -/
def JSValue.toBoolean : JSValue → Bool
  | .undefined => false
  | .null => false
  | .bool b => b
  | .num n => n != 0
  | .str s => s != ""
  | .arr _ => true
  | .obj _ => true

/-- Own property lookup. A key written twice keeps its last value, as in
`JSON.parse`. -/
def JSFields.get (name : String) : JSFields → Option JSValue
  | .nil => none
  | .cons key value rest =>
    match JSFields.get name rest with
    | some later => some later
    | none => if key = name then some value else none

mutual
/-- String conversion (`ToString`), used by template literals. -/
def JSValue.toStr : JSValue → String
  | .undefined => "undefined"
  | .null => "null"
  | .bool b => if b then "true" else "false"
  | .num n => toString n
  | .str s => s
  | .arr items => JSList.join items
  | .obj _ => "[object Object]"
termination_by structural v => v
/-- The method `Array.prototype.join` with a comma: `null` and `undefined`
elements print as the empty string. -/
def JSList.join : JSList → String
  | .nil => ""
  | .cons head tail =>
    (match head with
      | .undefined => ""
      | .null => ""
      | v => JSValue.toStr v) ++
    (match tail with
      | .nil => ""
      | more => "," ++ JSList.join more)
termination_by structural l => l
end

/-- What a failed evaluation throws. -/
inductive Thrown where
  | typeError
  | error (message : String)
  deriving DecidableEq

/-- The property read `data.access_token`. Reading a property of `null` or
`undefined` throws a `TypeError`; a primitive or an array has no such
property; an object yields its own property or `undefined`. -/
def JSValue.access_token : JSValue → Except Thrown JSValue
  | .undefined => .error .typeError
  | .null => .error .typeError
  | .obj fields => .ok ((fields.get "access_token").getD .undefined)
  | _ => .ok .undefined

/-- The comparison `Object.is` between a stored state value and a value that
was just read from a freshly parsed response: primitives compare by value, a
fresh array or object is never the stored one. -/
def JSValue.is : JSValue → JSValue → Bool
  | .undefined, .undefined => true
  | .null, .null => true
  | .bool a, .bool b => a == b
  | .num a, .num b => a == b
  | .str a, .str b => a == b
  | _, _ => false

/-! ## HTTP exchange -/

/-- A browser `File` picked in the file input. -/
structure File where
  name : String
  size : Nat
  deriving DecidableEq

/-- One entry of a `FormData` body. -/
inductive FormValue where
  | text (value : String)
  | file (value : File)
  deriving DecidableEq

/-- The arguments of one `fetch` call. -/
structure Request where
  url : String
  method : String
  headers : List (String × String)
  body : List (String × FormValue)
  deriving DecidableEq

/-- How the promise returned by `fetch` settles. It rejects (network
failure), or resolves with a response of some status whose `json()` either
resolves with the parsed body or rejects (`none`). -/
inductive FetchResult where
  | rejected
  | response (status : Nat) (json : Option JSValue)
  deriving DecidableEq

/-- The getter `response.ok` of the Fetch standard: the status is in the range
200 to 299. -/
def Response.ok (status : Nat) : Bool :=
  decide (200 ≤ status) && decide (status ≤ 299)

/-! ## Jobs and events -/

/-- One element of the `jobs` array: the three properties the table reads. -/
structure Job where
  id : JSValue
  status : JSValue
  created_at : JSValue
  deriving DecidableEq

/-- Everything a handler does that is visible outside of it, plus the marker
of the moment its `fetch` promise settled. -/
inductive Event where
  | preventDefault
  | fetch (request : Request)
  | fetchSettled (result : FetchResult)
  | toastSuccess (message : String)
  | toastError (message : String)
  | consoleError (label : String)
  | setToken (value : JSValue)
  | setSelectedFile (value : Option File)
  | setJobs (value : List Job)
  | setIsLoading (value : Bool)
  | formReset
  | navigate (path : String)
  | confirm (message : String)
  | onUploadSuccess
  | deleteJob (jobId : JSValue)
  deriving DecidableEq

/-- A function received as a prop, seen from its caller: the events it
performs when called and whether the call throws. -/
structure Callback where
  events : List Event
  throws : Bool
  deriving DecidableEq

/-- An async handler up to and after its single HTTP exchange. -/
inductive Handler where
  | done (events : List Event)
  | await (before : List Event) (request : Request)
      (resume : FetchResult → List Event)

/-- The events of a handler run to completion against a fetch outcome. -/
def Handler.trace (result : FetchResult) : Handler → List Event
  | .done events => events
  | .await before request resume =>
    before ++ [.fetch request, .fetchSettled result] ++ resume result

/-- The events of a handler from its start to the point where it suspends. -/
def Handler.beforeAwait : Handler → List Event
  | .done events => events
  | .await before request _ => before ++ [.fetch request]

/-! ## components/Login.jsx -/

/-- The `catch` block of `Login.handleSubmit`. -/
def Login.handleSubmit.onError : List Event :=
  [.consoleError "An error occurred during login:",
   .toastError "Incorrect email or password."]

/-- The form handler `handleSubmit` of `Login`, for the current `email` and
`password` fields. The prop `setToken` is the state setter of `App`. -/
def Login.handleSubmit (email password : String) : Handler :=
  .await [.preventDefault]
    { url := "http://localhost:8000/token"
      method := "POST"
      headers := []
      body := [("username", .text email), ("password", .text password)] }
    (fun result =>
      match result with
      | .rejected => Login.handleSubmit.onError
      | .response status json =>
        if !Response.ok status then Login.handleSubmit.onError
        else
          match json with
          | none => Login.handleSubmit.onError
          | some data =>
            match data.access_token with
            | .error _ => Login.handleSubmit.onError
            | .ok access_token =>
              [.setToken access_token, .toastSuccess "Login successful!"])

/-! ## components/FileUpload.jsx -/

/-- The change handler `handleFileChange` of the file input: the selection
becomes the first picked file, and is kept when nothing was picked. -/
def FileUpload.handleFileChange (files : Option (List File)) : List Event :=
  match files with
  | some (first :: _) => [.setSelectedFile (some first)]
  | _ => []

/-- The `catch` block of `FileUpload.handleSubmit`. -/
def FileUpload.handleSubmit.onError : List Event :=
  [.consoleError "Error uploading file:",
   .toastError "An error occurred during file upload."]

/-- The form handler `handleSubmit` of `FileUpload`, for the props `token`
and `onUploadSuccess` and the current `selectedFile` state. -/
def FileUpload.handleSubmit (token : JSValue) (onUploadSuccess : Callback)
    (selectedFile : Option File) : Handler :=
  match selectedFile with
  | none => .done [.preventDefault, .toastError "Please select a file first!"]
  | some file =>
    .await [.preventDefault]
      { url := "http://localhost:8000/analyses/"
        method := "POST"
        headers := [("Authorization", "Bearer " ++ token.toStr)]
        body := [("file", .file file)] }
      (fun result =>
        match result with
        | .rejected => FileUpload.handleSubmit.onError
        | .response status _ =>
          if !Response.ok status then FileUpload.handleSubmit.onError
          else
            [.toastSuccess "File uploaded! Analysis has started.",
             .setSelectedFile none,
             .formReset,
             .onUploadSuccess] ++ onUploadSuccess.events ++
            (if onUploadSuccess.throws then FileUpload.handleSubmit.onError
             else []))

/-- The `selectedFile` state of `FileUpload` after the setter calls among
`events` have been applied to it in order. -/
def FileUpload.selectedFileAfter (selectedFile : Option File) :
    List Event → Option File
  | [] => selectedFile
  | .setSelectedFile value :: rest => FileUpload.selectedFileAfter value rest
  | _ :: rest => FileUpload.selectedFileAfter selectedFile rest

/-! ## components/JobList.jsx -/

/-- The three icon components that `JobList.jsx` imports. -/
inductive IconComponent where
  | CheckCircleIcon
  | HourglassEmptyIcon
  | ErrorIcon
  deriving DecidableEq

/-- An icon element: the component and its `color` prop. -/
structure Icon where
  component : IconComponent
  color : String
  deriving DecidableEq

/-- The helper `renderStatusIcon`: a `switch` with strict equality against
three string literals, `null` (here `none`) by default. -/
def renderStatusIcon (status : JSValue) : Option Icon :=
  match status with
  | .str s =>
    if s = "complete" then some { component := .CheckCircleIcon, color := "success" }
    else if s = "pending" then
      some { component := .HourglassEmptyIcon, color := "action" }
    else if s = "failed" then some { component := .ErrorIcon, color := "error" }
    else none
  | _ => none

/-- A row of the loading skeleton: its `key` and its number of cells. -/
structure SkeletonRow where
  key : Nat
  cells : Nat
  deriving DecidableEq

/-- A body row of the jobs table. `date` is the value handed to `new Date`
and `deleteArg` the job id that the Delete button passes to
`handleDeleteClick`. -/
structure Row where
  key : JSValue
  icon : Option Icon
  idCell : JSValue
  statusCell : JSValue
  date : JSValue
  deleteArg : JSValue
  deriving DecidableEq

/-- What `JobList` returns. -/
inductive JobListView where
  | skeleton (headerCells : Nat) (rows : List SkeletonRow)
  | placeholder (title text : String)
  | table (title : String) (head : List String) (rows : List Row)
  deriving DecidableEq

/-- The table row that the `jobs.map` callback builds for one job. -/
def JobList.row (job : Job) : Row :=
  { key := job.id
    icon := renderStatusIcon job.status
    idCell := job.id
    statusCell := job.status
    date := job.created_at
    deleteArg := job.id }

/-- The component `JobList`. The prop `jobs` is `none` when it is `null` or
`undefined`. -/
def JobList (jobs : Option (List Job)) (isLoading : Bool) : JobListView :=
  if isLoading then
    .skeleton 5 ((List.range 3).map (fun index => { key := index, cells := 5 }))
  else
    match jobs with
    | none => .placeholder "My Analyses" "Your analysis jobs will appear here."
    | some jobs =>
      if jobs.length = 0 then
        .placeholder "My Analyses" "Your analysis jobs will appear here."
      else
        .table "My Analyses"
          ["Icon", "Job ID", "Status", "Date Created", "Actions"]
          (jobs.map JobList.row)

/-- The click handler `handleDeleteClick` of `JobList`, for the prop
`deleteJob` and the answer `confirmed` that `window.confirm` returns. -/
def JobList.handleDeleteClick (deleteJob : JSValue → Callback)
    (confirmed : Bool) (jobId : JSValue) : List Event :=
  [.confirm "Are you sure you want to permanently delete this job?"] ++
    (if confirmed then [.deleteJob jobId] ++ (deleteJob jobId).events else [])

/-! ## App.jsx -/

/-- The props `Dashboard` hands to `FileUpload`. -/
structure FileUploadProps where
  token : JSValue
  onUploadSuccess : Callback

/-- The props `Dashboard` hands to `JobList`. -/
structure JobListProps where
  jobs : Option (List Job)
  deleteJob : JSValue → Callback
  isLoading : Bool

/-- What `Dashboard` renders: a `FileUpload` and a `JobList`. -/
structure DashboardView where
  fileUpload : FileUploadProps
  jobList : JobListProps

/-- The component `Dashboard`. -/
def Dashboard (token : JSValue) (jobs : List Job) (fetchJobs : Callback)
    (deleteJob : JSValue → Callback) (isLoading : Bool) : DashboardView :=
  { fileUpload := { token := token, onUploadSuccess := fetchJobs }
    jobList := { jobs := some jobs, deleteJob := deleteJob, isLoading := isLoading } }

/-- The state of `App`: its three `useState` cells and the router location
that `useNavigate` changes. -/
structure AppState where
  token : JSValue
  jobs : List Job
  isLoading : Bool
  location : String

/-- The initial values of the `useState` cells, for the location the page
was opened at. -/
def App.initialState (location : String) : AppState :=
  { token := .str "", jobs := [], isLoading := false, location := location }

/-- The function `fetchJobs` of `App`: an async function with an empty body. -/
def App.fetchJobs : Callback :=
  { events := [], throws := false }

/-- The function `deleteJob` of `App`: an async function with an empty body. -/
def App.deleteJob (_jobId : JSValue) : Callback :=
  { events := [], throws := false }

/-- The body of the `useEffect` of `App`, whose dependency is `token`. -/
def App.useEffect (token : JSValue) : List Event :=
  if token.toBoolean then App.fetchJobs.events else [.setJobs []]

/-- The function `handleLogout` of `App`. -/
def App.handleLogout : List Event :=
  [.setToken (.str ""), .navigate "/", .toastSuccess "You have been logged out."]

/-- The effect of one event on the state of `App`: its state setters and
`navigate` write a cell, nothing else touches it. -/
def App.set (s : AppState) : Event → AppState
  | .setToken value => { s with token := value }
  | .setJobs value => { s with jobs := value }
  | .setIsLoading value => { s with isLoading := value }
  | .navigate path => { s with location := path }
  | _ => s

/-- The last value passed to `setToken` among `events`, if any. -/
def App.lastSetToken : List Event → Option JSValue
  | [] => none
  | .setToken value :: rest =>
    match App.lastSetToken rest with
    | some later => some later
    | none => some value
  | _ :: rest => App.lastSetToken rest

/-- The state of `App` once a handler that produced `events` has run: the
setters are applied in order, then the `useEffect` body runs if `token` was
set to a value that is not (by `Object.is`) the stored one. -/
def App.after (s : AppState) (events : List Event) : AppState :=
  let next := events.foldl App.set s
  match App.lastSetToken events with
  | none => next
  | some value =>
    if value.is s.token then next
    else (App.useEffect next.token).foldl App.set next

/-- The state of `App` after its first render: the `useEffect` body has run
once. -/
def App.mount (location : String) : AppState :=
  (App.useEffect (App.initialState location).token).foldl App.set
    (App.initialState location)

/-- The element a route of `App` renders. -/
inductive Page where
  | Login
  | Dashboard (view : DashboardView)
  | ModelPage
  | AboutPage

/-- What `App` renders: the `isLoggedIn` prop of `Header` and the element
of the matching route, if any (paths are compared literally). -/
structure AppView where
  isLoggedIn : Bool
  page : Option Page

/-- The component `App`. -/
def App (s : AppState) : AppView :=
  { isLoggedIn := !(!s.token.toBoolean)
    page :=
      if s.location = "/" then
        some (if !s.token.toBoolean then .Login
          else .Dashboard
            (Dashboard s.token s.jobs App.fetchJobs App.deleteJob s.isLoading))
      else if s.location = "/model" then some .ModelPage
      else if s.location = "/about" then some .AboutPage
      else none }

/-- A user interaction with the rendered application, with the outcome of
the HTTP exchange or prompt it leads to. -/
inductive Action where
  | login (email password : String) (result : FetchResult)
  | logout
  | upload (selectedFile : Option File) (result : FetchResult)
  | delete (jobId : JSValue) (confirmed : Bool)
  | navigate (path : String)

/-- The events of the handler that an interaction runs in state `s`. -/
def App.events (s : AppState) : Action → List Event
  | .login email password result => (Login.handleSubmit email password).trace result
  | .logout => App.handleLogout
  | .upload selectedFile result =>
    (FileUpload.handleSubmit s.token App.fetchJobs selectedFile).trace result
  | .delete jobId confirmed => JobList.handleDeleteClick App.deleteJob confirmed jobId
  | .navigate path => [.navigate path]

/-- One interaction. -/
def App.step (s : AppState) (a : Action) : AppState :=
  App.after s (App.events s a)

/-- The state of `App` after a sequence of interactions from a fresh page. -/
def App.run (location : String) (actions : List Action) : AppState :=
  actions.foldl App.step (App.mount location)

/-! ## Observations on event lists -/

/-- Whether an event is a success toast. -/
def Event.isToastSuccess : Event → Bool
  | .toastSuccess _ => true
  | _ => false

/-- Whether an event is an error toast. -/
def Event.isToastError : Event → Bool
  | .toastError _ => true
  | _ => false

/-- Whether an event is a `fetch` call. -/
def Event.isFetch : Event → Bool
  | .fetch _ => true
  | _ => false

/-- Whether an event is a call of the `setToken` prop. -/
def Event.isSetToken : Event → Bool
  | .setToken _ => true
  | _ => false

/-- Whether an event is a call of the `deleteJob` prop. -/
def Event.isDeleteJob : Event → Bool
  | .deleteJob _ => true
  | _ => false

/-- Whether an event writes a state cell of a component. -/
def Event.isStateSetter : Event → Bool
  | .setToken _ => true
  | .setSelectedFile _ => true
  | .setJobs _ => true
  | .setIsLoading _ => true
  | _ => false

/-- Whether a page is the `Login` element. -/
def Page.isLogin : Page → Bool
  | .Login => true
  | _ => false

/-- Whether a page is a `Dashboard` element. -/
def Page.isDashboard : Page → Bool
  | .Dashboard _ => true
  | _ => false

/-- The state of `App` with a given token, shown at the root route. -/
def App.atRoot (token : JSValue) (jobs : List Job) (isLoading : Bool) : AppState :=
  { token := token, jobs := jobs, isLoading := isLoading, location := "/" }

/-- Whether an event is a toast of either kind. -/
def Event.isToast (e : Event) : Bool :=
  e.isToastSuccess || e.isToastError

/-- Whether an event leaves an empty, not loading roster as it is: every
event does, except a `setJobs` with a non-empty array and any
`setIsLoading`. -/
def Event.keepsRoster : Event → Bool
  | .setJobs value => value.isEmpty
  | .setIsLoading _ => false
  | _ => true

/-- The view of the `JobList` inside a page, if the page is a `Dashboard`. -/
def Page.jobList : Page → Option JobListView
  | .Dashboard view => some (JobList view.jobList.jobs view.jobList.isLoading)
  | _ => none

/-- The roster part of the state of `App` is empty and not loading. -/
def AppState.rosterEmpty (s : AppState) : Prop :=
  s.jobs = [] ∧ s.isLoading = false

/-! ## Theorems -/

/-- C1. In every state of `App` the `isLoggedIn` flag handed to `Header` is
the truthiness of `token`: it is true exactly when the token is none of the
falsy values (`undefined`, `null`, `false`, `0`, the empty string), and for a
string token exactly when the string is non-empty. At the root route the page
is `Dashboard` exactly when the flag is true and `Login` exactly when it is
false; the initial state has the flag false and shows `Login`. -/
theorem C1_root_route_by_credential (token : JSValue) (jobs : List Job)
    (isLoading : Bool) (location : String) :
    ((App { token := token, jobs := jobs, isLoading := isLoading,
            location := location }).isLoggedIn = true ↔
      (token ≠ .undefined ∧ token ≠ .null ∧ token ≠ .bool false ∧
        token ≠ .num 0 ∧ token ≠ .str "")) ∧
    (∀ credential : String,
      ((App { token := .str credential, jobs := jobs, isLoading := isLoading,
              location := location }).isLoggedIn = true ↔ credential ≠ "")) ∧
    (((App (App.atRoot token jobs isLoading)).page.map Page.isDashboard = some true) ↔
      (App (App.atRoot token jobs isLoading)).isLoggedIn = true) ∧
    (((App (App.atRoot token jobs isLoading)).page.map Page.isLogin = some true) ↔
      (App (App.atRoot token jobs isLoading)).isLoggedIn = false) ∧
    (App (App.initialState "/")).isLoggedIn = false ∧
    (App (App.initialState "/")).page.map Page.isLogin = some true ∧
    (App (App.mount "/")).page.map Page.isLogin = some true := by
  refine ⟨?_, ?_, ?_, ?_, ?_, ?_, ?_⟩
  · cases token <;> simp [App, JSValue.toBoolean]
  · intro credential
    simp [App, JSValue.toBoolean]
  · cases h : token.toBoolean <;> simp [App, App.atRoot, h, Page.isDashboard]
  · cases h : token.toBoolean <;> simp [App, App.atRoot, h, Page.isLogin]
  · simp [App, App.initialState, JSValue.toBoolean]
  · simp [App, App.initialState, JSValue.toBoolean, Page.isLogin]
  · simp [App, App.mount, App.initialState, App.useEffect, App.set,
      JSValue.toBoolean, Page.isLogin]

/-- C2. Whatever the token, the callback and the network would do,
`FileUpload.handleSubmit` run with no selected file finishes without
suspending: it calls `preventDefault` and raises the single error toast
"Please select a file first!". It issues no `fetch`, does not call
`onUploadSuccess`, calls no state setter, and the selection is still absent. -/
theorem C2_submit_without_file (token : JSValue) (onUploadSuccess : Callback)
    (result : FetchResult) :
    (FileUpload.handleSubmit token onUploadSuccess none).trace result =
      [.preventDefault, .toastError "Please select a file first!"] ∧
    ((FileUpload.handleSubmit token onUploadSuccess none).trace result).countP
      Event.isFetch = 0 ∧
    ((FileUpload.handleSubmit token onUploadSuccess none).trace result).filter
      Event.isToastError = [.toastError "Please select a file first!"] ∧
    ((FileUpload.handleSubmit token onUploadSuccess none).trace result).countP
      Event.isToastSuccess = 0 ∧
    Event.onUploadSuccess ∉
      (FileUpload.handleSubmit token onUploadSuccess none).trace result ∧
    ((FileUpload.handleSubmit token onUploadSuccess none).trace result).countP
      Event.isStateSetter = 0 ∧
    FileUpload.selectedFileAfter none
      ((FileUpload.handleSubmit token onUploadSuccess none).trace result) = none := by
  simp [FileUpload.handleSubmit, Handler.trace, Event.isFetch, Event.isToastError,
    Event.isToastSuccess, Event.isStateSetter, FileUpload.selectedFileAfter]

/-- C3. With a selected file and the wiring of `Dashboard` (the callback is
`App.fetchJobs`), `FileUpload.handleSubmit` suspends on one POST to
`/analyses/` carrying the header `Authorization: Bearer <token>` and the
single form part `file`. When that request resolves with a status in 200 to
299 the handler then raises one success toast and no error toast, sets the
selection to absent, resets the form and calls `onUploadSuccess` exactly
once. That call is not among the events before the suspension: it comes
after the marker of the settled response. -/
theorem C3_upload_success (token : JSValue) (file : File) (status : Nat)
    (json : Option JSValue) (hok : Response.ok status = true) :
    (FileUpload.handleSubmit token App.fetchJobs (some file)).beforeAwait =
      [.preventDefault,
       .fetch { url := "http://localhost:8000/analyses/", method := "POST",
                headers := [("Authorization", "Bearer " ++ token.toStr)],
                body := [("file", .file file)] }] ∧
    (FileUpload.handleSubmit token App.fetchJobs (some file)).trace
        (.response status json) =
      (FileUpload.handleSubmit token App.fetchJobs (some file)).beforeAwait ++
        [.fetchSettled (.response status json)] ++
        [.toastSuccess "File uploaded! Analysis has started.",
         .setSelectedFile none, .formReset, .onUploadSuccess] ∧
    Event.onUploadSuccess ∉
      (FileUpload.handleSubmit token App.fetchJobs (some file)).beforeAwait ∧
    ((FileUpload.handleSubmit token App.fetchJobs (some file)).trace
      (.response status json)).count .onUploadSuccess = 1 ∧
    ((FileUpload.handleSubmit token App.fetchJobs (some file)).trace
      (.response status json)).countP Event.isToastSuccess = 1 ∧
    ((FileUpload.handleSubmit token App.fetchJobs (some file)).trace
      (.response status json)).countP Event.isToastError = 0 ∧
    FileUpload.selectedFileAfter (some file)
      ((FileUpload.handleSubmit token App.fetchJobs (some file)).trace
        (.response status json)) = none := by
  simp [FileUpload.handleSubmit, Handler.trace, Handler.beforeAwait, hok,
    App.fetchJobs, Event.isToastError, Event.isToastSuccess,
    FileUpload.selectedFileAfter]

/-- Witness of C3: the token `tok123` and a backend that answers 201 with
an empty body. -/
theorem C3_upload_success_witness :
    Response.ok 201 = true ∧
    ((FileUpload.handleSubmit (.str "tok123") App.fetchJobs
        (some { name := "scan.csv", size := 10 })).trace
      (.response 201 none)).count .onUploadSuccess = 1 ∧
    FileUpload.selectedFileAfter (some { name := "scan.csv", size := 10 })
      ((FileUpload.handleSubmit (.str "tok123") App.fetchJobs
        (some { name := "scan.csv", size := 10 })).trace
        (.response 201 none)) = none :=
  ⟨by decide,
   (C3_upload_success (.str "tok123") { name := "scan.csv", size := 10 } 201 none
      (by decide)).2.2.2.1,
   (C3_upload_success (.str "tok123") { name := "scan.csv", size := 10 } 201 none
      (by decide)).2.2.2.2.2.2⟩

/-- C4. With a selected file, whatever the token and the callback, when the
upload request resolves with a status outside 200 to 299 the handler raises
exactly one error toast ("An error occurred during file upload.") and no
success toast, calls no state setter so that the selection is still the same
file, and does not call `onUploadSuccess`. -/
theorem C4_upload_http_failure (token : JSValue) (onUploadSuccess : Callback)
    (file : File) (status : Nat) (json : Option JSValue)
    (hfail : Response.ok status = false) :
    (FileUpload.handleSubmit token onUploadSuccess (some file)).trace
        (.response status json) =
      (FileUpload.handleSubmit token onUploadSuccess (some file)).beforeAwait ++
        [.fetchSettled (.response status json),
         .consoleError "Error uploading file:",
         .toastError "An error occurred during file upload."] ∧
    ((FileUpload.handleSubmit token onUploadSuccess (some file)).trace
      (.response status json)).filter Event.isToastError =
        [.toastError "An error occurred during file upload."] ∧
    ((FileUpload.handleSubmit token onUploadSuccess (some file)).trace
      (.response status json)).countP Event.isToastSuccess = 0 ∧
    ((FileUpload.handleSubmit token onUploadSuccess (some file)).trace
      (.response status json)).countP Event.isStateSetter = 0 ∧
    FileUpload.selectedFileAfter (some file)
      ((FileUpload.handleSubmit token onUploadSuccess (some file)).trace
        (.response status json)) = some file ∧
    Event.onUploadSuccess ∉
      (FileUpload.handleSubmit token onUploadSuccess (some file)).trace
        (.response status json) := by
  simp [FileUpload.handleSubmit, Handler.trace, Handler.beforeAwait, hfail,
    FileUpload.handleSubmit.onError, Event.isToastError, Event.isToastSuccess,
    Event.isStateSetter, FileUpload.selectedFileAfter]

/-- Witness of C4: a backend that answers 500. -/
theorem C4_upload_http_failure_witness :
    Response.ok 500 = false ∧
    FileUpload.selectedFileAfter (some { name := "scan.csv", size := 10 })
      ((FileUpload.handleSubmit (.str "tok123") App.fetchJobs
        (some { name := "scan.csv", size := 10 })).trace
        (.response 500 none)) = some { name := "scan.csv", size := 10 } :=
  ⟨by decide,
   (C4_upload_http_failure (.str "tok123") App.fetchJobs
      { name := "scan.csv", size := 10 } 500 none (by decide)).2.2.2.2.1⟩

/-- C5, as stated, fails at a success response whose body is the JSON text
`null`. The response is a success and its body parses as JSON, yet
`setToken` is not called: reading `access_token` of `null` throws, the `catch`
block runs, and the only toast is the generic error. -/
theorem C5_null_body_counterexample :
    ¬ ((∃ e ∈ (Login.handleSubmit "user@example.com" "secret").trace
          (.response 200 (some .null)), e.isSetToken = true) ↔
        ∃ status data,
          FetchResult.response 200 (some .null) = .response status (some data) ∧
            Response.ok status = true) ∧
    ((Login.handleSubmit "user@example.com" "secret").trace
      (.response 200 (some .null))).countP Event.isSetToken = 0 ∧
    ((Login.handleSubmit "user@example.com" "secret").trace
      (.response 200 (some .null))).filter Event.isToast =
        [.toastError "Incorrect email or password."] := by
  refine ⟨?_, by decide, by decide⟩
  intro h
  have hcall := h.mpr ⟨200, .null, rfl, by decide⟩
  revert hcall
  decide

/-- C5, amended. `Login.handleSubmit` posts the two form fields to `/token`
and calls `setToken` exactly when the request resolves with a status in 200
to 299 and a body that parses as JSON to a value whose `access_token`
can be read (any value but `null`; `undefined` is not a JSON value). It then
calls `setToken` exactly once,
with that `access_token` value, and raises the one toast
"Login successful!". In every other case (other status, rejected request,
unparsable body, `null` body) it never calls `setToken`, the state of `App`
is left as it was, and the only toast is "Incorrect email or password.". -/
theorem C5_login_outcomes (email password : String) (result : FetchResult)
    (s : AppState) :
    (Login.handleSubmit email password).beforeAwait =
      [.preventDefault,
       .fetch { url := "http://localhost:8000/token", method := "POST",
                headers := [],
                body := [("username", .text email), ("password", .text password)] }] ∧
    ((∃ e ∈ (Login.handleSubmit email password).trace result, e.isSetToken = true) ↔
      ∃ status data, result = .response status (some data) ∧
        Response.ok status = true ∧ data ≠ .null ∧ data ≠ .undefined) ∧
    ((∃ e ∈ (Login.handleSubmit email password).trace result, e.isSetToken = true) →
      ∃ status data access_token, result = .response status (some data) ∧
        data.access_token = .ok access_token ∧
        ((Login.handleSubmit email password).trace result).filter Event.isSetToken =
          [.setToken access_token] ∧
        ((Login.handleSubmit email password).trace result).filter Event.isToast =
          [.toastSuccess "Login successful!"]) ∧
    ((¬ ∃ e ∈ (Login.handleSubmit email password).trace result, e.isSetToken = true) →
      ((Login.handleSubmit email password).trace result).filter Event.isToast =
          [.toastError "Incorrect email or password."] ∧
        App.after s ((Login.handleSubmit email password).trace result) = s) := by
  refine ⟨by simp [Login.handleSubmit, Handler.beforeAwait], ?_, ?_, ?_⟩
  · rcases result with _ | ⟨status, _ | data⟩
    · simp [Login.handleSubmit, Handler.trace, Login.handleSubmit.onError,
        Event.isSetToken]
    · simp [Login.handleSubmit, Handler.trace, Login.handleSubmit.onError,
        Event.isSetToken]
    · cases hok : Response.ok status <;> cases data <;>
        simp [Login.handleSubmit, Handler.trace, Login.handleSubmit.onError,
          Event.isSetToken, JSValue.access_token, hok] <;>
        exact ⟨status, _, ⟨rfl, rfl⟩, hok, by simp, by simp⟩
  · rcases result with _ | ⟨status, _ | data⟩
    · simp [Login.handleSubmit, Handler.trace, Login.handleSubmit.onError,
        Event.isSetToken]
    · simp [Login.handleSubmit, Handler.trace, Login.handleSubmit.onError,
        Event.isSetToken]
    · cases hok : Response.ok status <;> cases data <;>
        simp [Login.handleSubmit, Handler.trace, Login.handleSubmit.onError,
          Event.isSetToken, Event.isToast, Event.isToastSuccess,
          Event.isToastError, JSValue.access_token, hok] <;>
        exact ⟨status, _, ⟨rfl, rfl⟩, rfl⟩
  · rcases result with _ | ⟨status, _ | data⟩
    · simp [Login.handleSubmit, Handler.trace, Login.handleSubmit.onError,
        Event.isSetToken, Event.isToast, Event.isToastSuccess,
        Event.isToastError, App.after, App.lastSetToken, App.set]
    · simp [Login.handleSubmit, Handler.trace, Login.handleSubmit.onError,
        Event.isSetToken, Event.isToast, Event.isToastSuccess,
        Event.isToastError, App.after, App.lastSetToken, App.set]
    · cases hok : Response.ok status <;> cases data <;>
        simp [Login.handleSubmit, Handler.trace, Login.handleSubmit.onError,
          Event.isSetToken, Event.isToast, Event.isToastSuccess,
          Event.isToastError, JSValue.access_token, hok, App.after,
          App.lastSetToken, App.set]

/-- Witness of C5: a backend that answers 200 with the body
`{"access_token": "tok123"}` makes the handler call `setToken` once with
`"tok123"`; a backend that answers 401 leaves the session as it was at
startup and raises the generic error toast. -/
theorem C5_login_outcomes_witness :
    ((Login.handleSubmit "user@example.com" "secret").trace
      (.response 200 (some (.obj (.cons "access_token" (.str "tok123") .nil))))).filter
        Event.isSetToken = [.setToken (.str "tok123")] ∧
    (((Login.handleSubmit "user@example.com" "wrong").trace
        (.response 401 none)).filter Event.isToast =
          [.toastError "Incorrect email or password."] ∧
      App.after (App.mount "/")
        ((Login.handleSubmit "user@example.com" "wrong").trace (.response 401 none)) =
          App.mount "/") := by
  constructor
  · obtain ⟨status, data, access_token, hres, hacc, hset, _⟩ :=
      (C5_login_outcomes "user@example.com" "secret"
        (.response 200 (some (.obj (.cons "access_token" (.str "tok123") .nil))))
        (App.mount "/")).2.2.1 ⟨.setToken (.str "tok123"), by decide, rfl⟩
    injection hres with _ hjson
    injection hjson with hdata
    subst hdata
    have htok : access_token = .str "tok123" := by
      injection hacc.symm.trans (rfl :
        (JSValue.obj (.cons "access_token" (.str "tok123") .nil)).access_token =
          .ok (.str "tok123"))
    rw [hset, htok]
  · exact (C5_login_outcomes "user@example.com" "wrong" (.response 401 none)
      (App.mount "/")).2.2.2 (by decide)

/-- C6. From any state of `App` in which the token is truthy, `handleLogout`
stores the empty string as token, navigates to `/`, and raises exactly one
toast, "You have been logged out.". In the state that results, the
`isLoggedIn` flag is false and the page shown is `Login`. -/
theorem C6_logout (s : AppState) (hauth : s.token.toBoolean = true) :
    App.handleLogout =
      [.setToken (.str ""), .navigate "/",
       .toastSuccess "You have been logged out."] ∧
    (App.after s App.handleLogout).token = .str "" ∧
    (App.after s App.handleLogout).location = "/" ∧
    App.handleLogout.filter Event.isToast =
      [.toastSuccess "You have been logged out."] ∧
    (App (App.after s App.handleLogout)).isLoggedIn = false ∧
    (App (App.after s App.handleLogout)).page.map Page.isLogin = some true := by
  have hne : (JSValue.str "").is s.token = false := by
    cases htok : s.token <;> simp [JSValue.is]
    rename_i t
    rw [htok] at hauth
    intro h
    subst h
    simp [JSValue.toBoolean] at hauth
  simp [App.handleLogout, App.after, App.lastSetToken, App.set, hne,
    App.useEffect, JSValue.toBoolean, App, Event.isToast, Event.isToastSuccess,
    Event.isToastError, Page.isLogin]

/-- Witness of C6: logging out of a session that holds the token `tok123`. -/
theorem C6_logout_witness :
    (JSValue.str "tok123").toBoolean = true ∧
    (App.after (App.atRoot (.str "tok123") [] false) App.handleLogout).token =
      .str "" ∧
    (App (App.after (App.atRoot (.str "tok123") [] false)
      App.handleLogout)).page.map Page.isLogin = some true :=
  ⟨by decide,
   (C6_logout (App.atRoot (.str "tok123") [] false) (by decide)).2.1,
   (C6_logout (App.atRoot (.str "tok123") [] false) (by decide)).2.2.2.2.2⟩

/-- C7. The function `renderStatusIcon` is defined on every value. It
returns the `CheckCircleIcon` element for the string `complete`, the
`HourglassEmptyIcon` element for `pending`, the `ErrorIcon` element for
`failed`; these three elements are pairwise distinct; and for every other
value, string or not, it returns no element. -/
theorem C7_renderStatusIcon_total :
    renderStatusIcon (.str "complete") =
      some { component := .CheckCircleIcon, color := "success" } ∧
    renderStatusIcon (.str "pending") =
      some { component := .HourglassEmptyIcon, color := "action" } ∧
    renderStatusIcon (.str "failed") =
      some { component := .ErrorIcon, color := "error" } ∧
    renderStatusIcon (.str "complete") ≠ renderStatusIcon (.str "pending") ∧
    renderStatusIcon (.str "complete") ≠ renderStatusIcon (.str "failed") ∧
    renderStatusIcon (.str "pending") ≠ renderStatusIcon (.str "failed") ∧
    (∀ status : JSValue,
      renderStatusIcon status =
        if status = .str "complete" then renderStatusIcon (.str "complete")
        else if status = .str "pending" then renderStatusIcon (.str "pending")
        else if status = .str "failed" then renderStatusIcon (.str "failed")
        else none) := by
  refine ⟨by decide, by decide, by decide, by decide, by decide, by decide, ?_⟩
  intro status
  cases status <;> simp [renderStatusIcon]

/-- C8. The output of `JobList` is determined by `isLoading` and `jobs` in
three cases. If `isLoading`, it is the skeleton with exactly three rows
(keys 0, 1, 2), whatever `jobs` is. Otherwise, if `jobs` is absent or empty,
it is the placeholder "Your analysis jobs will appear here.". Otherwise it is
the table whose rows are the rows of the jobs, one per job and in the same
order; the row of a job shows `renderStatusIcon` of its status, its id and
its status as text. A single job with status `pending` gives one row with
the hourglass icon and the text `pending`. -/
theorem C8_JobList_cases :
    (∀ jobs : Option (List Job),
      JobList jobs true =
        .skeleton 5 [{ key := 0, cells := 5 }, { key := 1, cells := 5 },
          { key := 2, cells := 5 }]) ∧
    JobList none false =
      .placeholder "My Analyses" "Your analysis jobs will appear here." ∧
    JobList (some []) false =
      .placeholder "My Analyses" "Your analysis jobs will appear here." ∧
    (∀ (job : Job) (rest : List Job),
      JobList (some (job :: rest)) false =
        .table "My Analyses" ["Icon", "Job ID", "Status", "Date Created", "Actions"]
          ((job :: rest).map JobList.row)) ∧
    (∀ jobs : List Job, (jobs.map JobList.row).length = jobs.length) ∧
    (∀ (jobs : List Job) (i : Nat),
      (jobs.map JobList.row)[i]? = (jobs[i]?).map JobList.row) ∧
    (∀ job : Job,
      (JobList.row job).icon = renderStatusIcon job.status ∧
      (JobList.row job).idCell = job.id ∧
      (JobList.row job).statusCell = job.status ∧
      (JobList.row job).key = job.id) ∧
    JobList (some [{ id := .str "j1", status := .str "pending",
                     created_at := .str "2024-01-01T00:00:00Z" }]) false =
      .table "My Analyses" ["Icon", "Job ID", "Status", "Date Created", "Actions"]
        [{ key := .str "j1"
           icon := some { component := .HourglassEmptyIcon, color := "action" }
           idCell := .str "j1"
           statusCell := .str "pending"
           date := .str "2024-01-01T00:00:00Z"
           deleteArg := .str "j1" }] := by
  refine ⟨?_, ?_, ?_, ?_, ?_, ?_, ?_, ?_⟩
  · intro jobs
    simp [JobList, List.range, List.range.loop]
  · simp [JobList]
  · simp [JobList]
  · intro job rest
    simp [JobList]
  · intro jobs
    simp
  · intro jobs i
    simp
  · intro job
    simp [JobList.row]
  · decide

/-- C9. The handler `handleDeleteClick` first asks the confirmation prompt.
With the `deleteJob` of `App` as callback, it calls `deleteJob` exactly when
the prompt returned true, and then exactly once with the job id it was given;
when the prompt is declined `deleteJob` is not called. In both cases the
handler calls no state setter, the state of `App` is left as it was, and so
`JobList` renders the same view of the same jobs. -/
theorem C9_delete_gated_by_confirm (jobId : JSValue) (confirmed : Bool)
    (s : AppState) :
    (∀ deleteJob : JSValue → Callback,
      JobList.handleDeleteClick deleteJob confirmed jobId =
        [.confirm "Are you sure you want to permanently delete this job?"] ++
          (if confirmed then [.deleteJob jobId] ++ (deleteJob jobId).events
           else [])) ∧
    ((∃ e ∈ JobList.handleDeleteClick App.deleteJob confirmed jobId,
        e.isDeleteJob = true) ↔ confirmed = true) ∧
    (JobList.handleDeleteClick App.deleteJob confirmed jobId).filter
        Event.isDeleteJob =
      (if confirmed then [.deleteJob jobId] else []) ∧
    (JobList.handleDeleteClick App.deleteJob true jobId).filter
        Event.isDeleteJob = [.deleteJob jobId] ∧
    (JobList.handleDeleteClick App.deleteJob false jobId).countP
        Event.isDeleteJob = 0 ∧
    (JobList.handleDeleteClick App.deleteJob confirmed jobId).countP
        Event.isStateSetter = 0 ∧
    App.after s (JobList.handleDeleteClick App.deleteJob confirmed jobId) = s ∧
    JobList
        (some (App.after s
          (JobList.handleDeleteClick App.deleteJob confirmed jobId)).jobs)
        (App.after s
          (JobList.handleDeleteClick App.deleteJob confirmed jobId)).isLoading =
      JobList (some s.jobs) s.isLoading := by
  have hsame :
      App.after s (JobList.handleDeleteClick App.deleteJob confirmed jobId) = s := by
    cases confirmed <;>
      simp [JobList.handleDeleteClick, App.deleteJob, App.after,
        App.lastSetToken, App.set]
  refine ⟨?_, ?_, ?_, ?_, ?_, ?_, hsame, by rw [hsame]⟩
  · intro deleteJob
    rfl
  · cases confirmed <;>
      simp [JobList.handleDeleteClick, App.deleteJob, Event.isDeleteJob]
  · cases confirmed <;>
      simp [JobList.handleDeleteClick, App.deleteJob, Event.isDeleteJob]
  · simp [JobList.handleDeleteClick, App.deleteJob, Event.isDeleteJob]
  · simp [JobList.handleDeleteClick, App.deleteJob, Event.isDeleteJob]
  · cases confirmed <;>
      simp [JobList.handleDeleteClick, App.deleteJob, Event.isStateSetter]

/-! ### The roster invariant -/

theorem set_keeps_rosterEmpty (s : AppState) (e : Event)
    (he : e.keepsRoster = true) (hs : s.rosterEmpty) :
    (App.set s e).rosterEmpty := by
  obtain ⟨hjobs, hload⟩ := hs
  cases e <;> simp_all [App.set, AppState.rosterEmpty, Event.keepsRoster]

theorem foldl_set_keeps_rosterEmpty (events : List Event) :
    ∀ s : AppState, events.all Event.keepsRoster = true → s.rosterEmpty →
      (events.foldl App.set s).rosterEmpty := by
  induction events with
  | nil => intro s _ hs; simpa using hs
  | cons e rest ih =>
    intro s hall hs
    simp only [List.all_cons, Bool.and_eq_true] at hall
    simp only [List.foldl_cons]
    exact ih (App.set s e) hall.2 (set_keeps_rosterEmpty s e hall.1 hs)

theorem useEffect_keepsRoster (token : JSValue) :
    (App.useEffect token).all Event.keepsRoster = true := by
  cases h : token.toBoolean <;>
    simp [App.useEffect, h, App.fetchJobs, Event.keepsRoster]

theorem events_keepsRoster (s : AppState) (a : Action) :
    (App.events s a).all Event.keepsRoster = true := by
  cases a with
  | login email password result =>
    rcases result with _ | ⟨status, _ | data⟩
    · simp [App.events, Login.handleSubmit, Handler.trace,
        Login.handleSubmit.onError, Event.keepsRoster]
    · cases hok : Response.ok status <;>
        simp [App.events, Login.handleSubmit, Handler.trace,
          Login.handleSubmit.onError, Event.keepsRoster, hok]
    · cases hok : Response.ok status <;> cases data <;>
        simp [App.events, Login.handleSubmit, Handler.trace,
          Login.handleSubmit.onError, Event.keepsRoster, hok,
          JSValue.access_token]
  | logout => simp [App.events, App.handleLogout, Event.keepsRoster]
  | upload selectedFile result =>
    cases selectedFile with
    | none =>
      simp [App.events, FileUpload.handleSubmit, Handler.trace,
        Event.keepsRoster]
    | some file =>
      rcases result with _ | ⟨status, json⟩
      · simp [App.events, FileUpload.handleSubmit, Handler.trace,
          FileUpload.handleSubmit.onError, Event.keepsRoster]
      · cases hok : Response.ok status <;>
          simp [App.events, FileUpload.handleSubmit, Handler.trace,
            FileUpload.handleSubmit.onError, Event.keepsRoster, hok,
            App.fetchJobs]
  | delete jobId confirmed =>
    cases confirmed <;>
      simp [App.events, JobList.handleDeleteClick, App.deleteJob,
        Event.keepsRoster]
  | navigate path => simp [App.events, Event.keepsRoster]

theorem after_keeps_rosterEmpty (s : AppState) (events : List Event)
    (hall : events.all Event.keepsRoster = true) (hs : s.rosterEmpty) :
    (App.after s events).rosterEmpty := by
  have hnext := foldl_set_keeps_rosterEmpty events s hall hs
  unfold App.after
  simp only
  split
  · exact hnext
  · split
    · exact hnext
    · exact foldl_set_keeps_rosterEmpty _ _ (useEffect_keepsRoster _) hnext

theorem mount_rosterEmpty (location : String) :
    (App.mount location).rosterEmpty :=
  foldl_set_keeps_rosterEmpty _ _ (useEffect_keepsRoster _)
    ⟨rfl, rfl⟩

theorem foldl_step_keeps_rosterEmpty (actions : List Action) :
    ∀ s : AppState, s.rosterEmpty → (actions.foldl App.step s).rosterEmpty := by
  induction actions with
  | nil => intro s hs; simpa using hs
  | cons a rest ih =>
    intro s hs
    simp only [List.foldl_cons]
    exact ih _ (after_keeps_rosterEmpty s _ (events_keepsRoster s a) hs)

/-- C10. The functions `fetchJobs` and `deleteJob` of `App` perform no event,
and no handler ever calls `setIsLoading` or calls `setJobs` with a non-empty
array. Hence in every state that `App` reaches from a fresh page by any
sequence of login, logout, upload, delete and navigation interactions,
whatever the backend answers, `jobs` is empty and `isLoading` is false; and
if the page shown is the `Dashboard`, its `JobList` renders the empty-state
placeholder (not the skeleton, not a table). -/
theorem C10_roster_stays_empty (location : String) (actions : List Action) :
    App.fetchJobs.events = [] ∧
    (∀ jobId : JSValue, (App.deleteJob jobId).events = []) ∧
    (∀ (s : AppState) (a : Action),
      (App.events s a).all Event.keepsRoster = true) ∧
    (App.run location actions).jobs = [] ∧
    (App.run location actions).isLoading = false ∧
    ((App (App.run location actions)).page.bind Page.jobList = none ∨
      (App (App.run location actions)).page.bind Page.jobList =
        some (.placeholder "My Analyses" "Your analysis jobs will appear here.")) ∧
    ((App (App.run location actions)).page.map Page.isDashboard = some true ↔
      (App (App.run location actions)).page.bind Page.jobList =
        some (.placeholder "My Analyses"
          "Your analysis jobs will appear here.")) := by
  have hinv : (App.run location actions).rosterEmpty :=
    foldl_step_keeps_rosterEmpty actions _ (mount_rosterEmpty location)
  obtain ⟨hjobs, hload⟩ := hinv
  refine ⟨rfl, fun _ => rfl, events_keepsRoster, hjobs, hload, ?_, ?_⟩
  · unfold App
    simp only
    split_ifs <;>
      simp [Page.jobList, Dashboard, JobList, hjobs, hload]
  · unfold App
    simp only
    split_ifs <;>
      simp [Page.jobList, Page.isDashboard, Dashboard, JobList, hjobs, hload]

/-- Witness of C10: after a successful login with the token `tok123`, a
successful upload and a confirmed delete, the page shown is the `Dashboard`
and its `JobList` is the empty-state placeholder. -/
theorem C10_roster_stays_empty_witness :
    (App (App.run "/"
      [.login "user@example.com" "secret"
         (.response 200 (some (.obj (.cons "access_token" (.str "tok123") .nil)))),
       .upload (some { name := "scan.csv", size := 10 }) (.response 201 none),
       .delete (.str "j1") true])).page.map Page.isDashboard = some true ∧
    (App (App.run "/"
      [.login "user@example.com" "secret"
         (.response 200 (some (.obj (.cons "access_token" (.str "tok123") .nil)))),
       .upload (some { name := "scan.csv", size := 10 }) (.response 201 none),
       .delete (.str "j1") true])).page.bind Page.jobList =
      some (.placeholder "My Analyses" "Your analysis jobs will appear here.") :=
  ⟨by decide,
   (C10_roster_stays_empty "/"
      [.login "user@example.com" "secret"
         (.response 200 (some (.obj (.cons "access_token" (.str "tok123") .nil)))),
       .upload (some { name := "scan.csv", size := 10 }) (.response 201 none),
       .delete (.str "j1") true]).2.2.2.2.2.2 |>.mp (by decide)⟩

end TRACE
